import Mathlib

/-!
Shallow embedding of the PACE performance-analysis model
(hardware_config.py, gemm_analyzer.py, conv_analyzer.py, analyzer.py).

Conventions of the embedding:
* Python ints are `ℕ` where provably non-negative, otherwise `ℤ`
  (Python `//` on `ℤ` is floor division, `Int.fdiv`).
* Python float arithmetic (the fractional reload multiplier, the
  computation-cycle division) is modelled exactly over `ℚ`.
* Divisions whose divisor is a hardware parameter assume the documented
  hardware invariant (strictly positive capacities and bandwidth);
  divisions whose divisor is derived from the workload (stride, tile
  dimensions, tile counts) raise in Python when zero, so the Conv
  functions return `Option` and yield `none` exactly there.
-/

/-- HardwareConfig from hardware_config.py: capacities already converted
to bytes, latencies and frequencies stored as given. -/
structure HardwareConfig where
  dram_size : ℕ
  central_sram_size : ℕ
  cgra_sram_size : ℕ
  dram_latency : ℕ
  central_sram_latency : ℕ
  cgra_sram_latency : ℕ
  dma_transfer_rate : ℕ
  bus_frequency : ℕ
  cgra_frequency : ℕ
deriving Repr, DecidableEq

/-- HardwareConfig.__init__: dram size is given in MB, the two SRAM sizes
in KB; the constructor converts them to bytes. -/
def mkHardwareConfig (dram central cgra dramLat centralLat cgraLat dma bus freq : ℕ) :
    HardwareConfig :=
  { dram_size := dram * 1024 * 1024
    central_sram_size := central * 1024
    cgra_sram_size := cgra * 1024
    dram_latency := dramLat
    central_sram_latency := centralLat
    cgra_sram_latency := cgraLat
    dma_transfer_rate := dma
    bus_frequency := bus
    cgra_frequency := freq }

/-- BaseAnalyzer._calculate_transfer_latency: int(np.ceil(size_bytes / dma_transfer_rate)). -/
def calculate_transfer_latency (hw : HardwareConfig) (size_bytes : ℚ) : ℤ :=
  ⌈size_bytes / (hw.dma_transfer_rate : ℚ)⌉

/-- Per-tier utilization record returned by BaseAnalyzer._calculate_memory_utilization. -/
structure MemoryUtilization where
  cgra_sram : ℚ
  central_sram : ℚ
  dram : ℚ
deriving Repr, DecidableEq

/-- BaseAnalyzer._calculate_memory_utilization: min(1.0, total_memory / size) per tier. -/
def calculate_memory_utilization (hw : HardwareConfig) (total_memory : ℚ) : MemoryUtilization :=
  { cgra_sram := min 1 (total_memory / (hw.cgra_sram_size : ℚ))
    central_sram := min 1 (total_memory / (hw.central_sram_size : ℚ))
    dram := min 1 (total_memory / (hw.dram_size : ℚ)) }

/-- GEMMConfig (one analysis point; the swept dimension is passed separately). -/
structure GEMMConfig where
  data_type_size : ℕ
  tiling_size : Option ℕ
deriving Repr, DecidableEq

/-- GEMMAnalyzer._calculate_memory_requirements: matrix_size = dim² · element size. -/
def gemm_matrix_size (cfg : GEMMConfig) (dim : ℕ) : ℕ :=
  dim * dim * cfg.data_type_size

/-- The byte volume `matrix_a_load + matrix_b_load + matrix_c_load + matrix_c_store`
computed identically in both branches of GEMMAnalyzer.calculate_memory_access_latency.
Python's `if config.tiling_size:` is false both for None and for 0, so a zero
tile side takes the untiled path. -/
def gemm_loads (cfg : GEMMConfig) (dim : ℕ) : ℕ :=
  match cfg.tiling_size with
  | some tile_size =>
    if tile_size = 0 then
      gemm_matrix_size cfg dim + gemm_matrix_size cfg dim +
        gemm_matrix_size cfg dim + gemm_matrix_size cfg dim
    else
      let num_tiles_m := (dim + tile_size - 1) / tile_size
      let num_tiles_n := (dim + tile_size - 1) / tile_size
      let num_tiles_k := (dim + tile_size - 1) / tile_size
      let tile_bytes := tile_size * tile_size * cfg.data_type_size
      let matrix_a_load := tile_bytes * num_tiles_m * num_tiles_k
      let matrix_b_load := tile_bytes * num_tiles_k * num_tiles_n
      let matrix_c_load := tile_bytes * num_tiles_m * num_tiles_n
      matrix_a_load + matrix_b_load + matrix_c_load + matrix_c_load
  | none =>
      gemm_matrix_size cfg dim + gemm_matrix_size cfg dim +
        gemm_matrix_size cfg dim + gemm_matrix_size cfg dim

/-- The working set used for the reload multiplier in
GEMMAnalyzer.calculate_memory_access_latency (again with Python truthiness:
tile side 0 behaves like no tiling). -/
def gemm_working_set (cfg : GEMMConfig) (dim : ℕ) : ℕ :=
  match cfg.tiling_size with
  | some tile_size =>
    if tile_size = 0 then
      min (gemm_matrix_size cfg dim * 3) (3 * gemm_matrix_size cfg dim)
    else
      (2 * tile_size * tile_size + tile_size * tile_size) * cfg.data_type_size
  | none => min (gemm_matrix_size cfg dim * 3) (3 * gemm_matrix_size cfg dim)

/-- Traffic/latency breakdown returned by GEMMAnalyzer.calculate_memory_access_latency,
enriched with the intermediate byte volumes the method computes along the way
(in Python those live in local variables and debug_info). `dram_bytes` is 0
in the fits-in-central branch, where no DRAM transfer occurs. -/
structure GEMMMemAccess where
  dram_to_central : ℤ
  central_to_cgra : ℤ
  dram_bytes : ℕ
  working_set : ℕ
  reloads : ℚ
  central_cgra_bytes : ℚ
deriving Repr, DecidableEq

/-- GEMMAnalyzer.calculate_memory_access_latency. -/
def gemm_calculate_memory_access_latency (hw : HardwareConfig) (cfg : GEMMConfig)
    (dim : ℕ) : GEMMMemAccess :=
  let total_size := gemm_matrix_size cfg dim * 3
  let loads := gemm_loads cfg dim
  let dram_pair : ℤ × ℕ :=
    if total_size ≤ hw.central_sram_size then (0, 0)
    else (calculate_transfer_latency hw (loads : ℚ), loads)
  let working_set := gemm_working_set cfg dim
  let reloads : ℚ := max 1 ((working_set : ℚ) / (hw.cgra_sram_size : ℚ))
  let central_cgra_bytes : ℚ := (loads : ℚ) * reloads
  { dram_to_central := dram_pair.1
    central_to_cgra := calculate_transfer_latency hw central_cgra_bytes
    dram_bytes := dram_pair.2
    working_set := working_set
    reloads := reloads
    central_cgra_bytes := central_cgra_bytes }

/-- The three-entry latency dict returned by GEMMAnalyzer._calculate_latencies.
The computation estimate is float division in Python: 2·dim³ / 4. -/
structure GEMMLatencies where
  dram_to_central : ℤ
  central_to_cgra : ℤ
  computation : ℚ
deriving Repr, DecidableEq

/-- GEMMAnalyzer._calculate_latencies. -/
def gemm_calculate_latencies (hw : HardwareConfig) (cfg : GEMMConfig) (dim : ℕ) :
    GEMMLatencies :=
  let m := gemm_calculate_memory_access_latency hw cfg dim
  { dram_to_central := m.dram_to_central
    central_to_cgra := m.central_to_cgra
    computation := (2 * dim * dim * dim : ℚ) / 4 }

/-- One entry of the result list built by GEMMAnalyzer.analyze. -/
structure GEMMResult where
  dimension : ℕ
  per_matrix : ℕ
  total : ℕ
  latencies : GEMMLatencies
  utilization : MemoryUtilization
  total_latency : ℚ
deriving Repr, DecidableEq

/-- GEMMAnalyzer.analyze, restricted to a single swept dimension:
memory requirements, latencies, utilization and total_latency = sum of the
three latency entries. -/
def gemm_analyze_point (hw : HardwareConfig) (cfg : GEMMConfig) (dim : ℕ) : GEMMResult :=
  let matrix_size := gemm_matrix_size cfg dim
  let lat := gemm_calculate_latencies hw cfg dim
  { dimension := dim
    per_matrix := matrix_size
    total := matrix_size * 3
    latencies := lat
    utilization := calculate_memory_utilization hw ((matrix_size * 3 : ℕ) : ℚ)
    total_latency := (lat.dram_to_central : ℚ) + (lat.central_to_cgra : ℚ) + lat.computation }

/-- The reference hardware profile of the two spec scenarios:
dram 32 MiB, central 512 KiB, local 32 KiB, dma 16 bytes per cycle. -/
def hwDefault : HardwareConfig := mkHardwareConfig 32 512 32 100 10 1 16 100 100

/-- Untiled GEMM workload with element size 4. -/
def gemmCfgUntiled : GEMMConfig := { data_type_size := 4, tiling_size := none }

/-- ConvConfig (one analysis point; the swept input dimension and kernel size
are passed separately). dilation, groups and the memory_pattern fields are
parsed and stored but never read by the analysis. -/
structure ConvConfig where
  num_channels : ℕ
  num_filters : ℕ
  data_type_size : ℕ
  padding : ℕ
  stride : ℕ
  dilation : ℕ
  groups : ℕ
  tiling_size : Option (ℕ × ℕ)
  input_layout : String
  kernel_layout : String
  vectorization : ℕ
deriving Repr, DecidableEq

/-- input_size = dim · dim · num_channels · data_type_size. -/
def conv_input_size (cfg : ConvConfig) (dim : ℕ) : ℤ :=
  (dim * dim * cfg.num_channels * cfg.data_type_size : ℕ)

/-- kernel_size_bytes = kernel_size² · num_channels · num_filters · data_type_size. -/
def conv_kernel_size_bytes (cfg : ConvConfig) (kernel_size : ℕ) : ℤ :=
  (kernel_size * kernel_size * cfg.num_channels * cfg.num_filters * cfg.data_type_size : ℕ)

/-- output_dim = ((dim + 2·padding − kernel_size) // stride) + 1, Python floor
division over possibly negative numerators (meaningless for stride = 0, where
Python raises; callers guard that case). -/
def conv_output_dim (cfg : ConvConfig) (dim kernel_size : ℕ) : ℤ :=
  Int.fdiv ((dim : ℤ) + 2 * (cfg.padding : ℤ) - (kernel_size : ℤ)) (cfg.stride : ℤ) + 1

/-- output_size = output_dim² · num_filters · data_type_size (non-negative even
when output_dim is negative, because output_dim is squared). -/
def conv_output_size (cfg : ConvConfig) (dim kernel_size : ℕ) : ℤ :=
  conv_output_dim cfg dim kernel_size * conv_output_dim cfg dim kernel_size *
    (cfg.num_filters : ℤ) * (cfg.data_type_size : ℤ)

/-- total_size = input_size + kernel_size_bytes + output_size. -/
def conv_total_size (cfg : ConvConfig) (dim kernel_size : ℕ) : ℤ :=
  conv_input_size cfg dim + conv_kernel_size_bytes cfg kernel_size +
    conv_output_size cfg dim kernel_size

/-- The (input_load, kernel_load, output_load) triple computed identically in
both branches of ConvAnalyzer.calculate_memory_access_latency. `none` models
the ZeroDivisionError Python raises when a tile dimension is 0 or when the
tile counts multiply to 0 (dim = 0). -/
def conv_loads (cfg : ConvConfig) (dim kernel_size : ℕ) : Option (ℤ × ℤ × ℤ) :=
  match cfg.tiling_size with
  | some (tile_h, tile_w) =>
    if tile_h = 0 ∨ tile_w = 0 then none
    else
      let num_tiles_h := (dim + tile_h - 1) / tile_h
      let num_tiles_w := (dim + tile_w - 1) / tile_w
      if num_tiles_h * num_tiles_w = 0 then none
      else
        let effective_tile_size :=
          Int.fdiv (conv_input_size cfg dim) ((num_tiles_h : ℤ) * (num_tiles_w : ℤ))
        some (effective_tile_size * (num_tiles_h : ℤ) * (num_tiles_w : ℤ) *
                (1 + ((kernel_size : ℤ) - 1)),
              conv_kernel_size_bytes cfg kernel_size,
              conv_output_size cfg dim kernel_size)
  | none =>
      some (conv_input_size cfg dim * (kernel_size : ℤ) * (kernel_size : ℤ),
            conv_kernel_size_bytes cfg kernel_size,
            conv_output_size cfg dim kernel_size * 2)

/-- Traffic/latency breakdown returned by ConvAnalyzer.calculate_memory_access_latency,
enriched with the intermediate byte volumes the method computes along the way.
`dram_bytes` is 0 in the fits-in-central branch, where no DRAM transfer occurs. -/
structure ConvMemAccess where
  dram_to_central : ℤ
  central_to_cgra : ℤ
  dram_bytes : ℤ
  input_load : ℤ
  kernel_load : ℤ
  output_load : ℤ
  pre_reload_total : ℤ
  working_set : ℤ
  reloads : ℚ
  central_cgra_bytes : ℚ
deriving Repr, DecidableEq

/-- The tail of ConvAnalyzer.calculate_memory_access_latency after the three
per-tensor loads are fixed: DRAM routing decision, working set, reload
multiplier, and the two transfer latencies. -/
def conv_mem_core (hw : HardwareConfig) (cfg : ConvConfig) (dim kernel_size : ℕ)
    (input_load kernel_load output_load : ℤ) : ConvMemAccess :=
  let total_size := conv_total_size cfg dim kernel_size
  let total_transfer := input_load + kernel_load + output_load
  let dram_pair : ℤ × ℤ :=
    if total_size ≤ (hw.central_sram_size : ℤ) then (0, 0)
    else (calculate_transfer_latency hw (total_transfer : ℚ), total_transfer)
  let working_set : ℤ :=
    min total_size
      (match cfg.tiling_size with
       | some (tile_h, tile_w) =>
           ((tile_h * tile_w * cfg.num_channels * cfg.data_type_size : ℕ) : ℤ)
       | none => total_size)
  let reloads : ℚ := max 1 ((working_set : ℚ) / (hw.cgra_sram_size : ℚ))
  let central_cgra_bytes : ℚ := (total_transfer : ℚ) * reloads
  { dram_to_central := dram_pair.1
    central_to_cgra := calculate_transfer_latency hw central_cgra_bytes
    dram_bytes := dram_pair.2
    input_load := input_load
    kernel_load := kernel_load
    output_load := output_load
    pre_reload_total := total_transfer
    working_set := working_set
    reloads := reloads
    central_cgra_bytes := central_cgra_bytes }

/-- ConvAnalyzer.calculate_memory_access_latency. `none` models the
ZeroDivisionError paths (stride 0, or a zero tile divisor). -/
def conv_calculate_memory_access_latency (hw : HardwareConfig) (cfg : ConvConfig)
    (dim kernel_size : ℕ) : Option ConvMemAccess :=
  if cfg.stride = 0 then none
  else
    (conv_loads cfg dim kernel_size).map fun loads =>
      conv_mem_core hw cfg dim kernel_size loads.1 loads.2.1 loads.2.2

/-- The three-entry latency dict returned by ConvAnalyzer._calculate_latencies. -/
structure ConvLatencies where
  dram_to_central : ℤ
  central_to_cgra : ℤ
  computation : ℤ
deriving Repr, DecidableEq

/-- ConvAnalyzer._calculate_latencies: computation = 2 · kernel_size² ·
num_channels · output_dim² · num_filters, with no division by a compute width. -/
def conv_calculate_latencies (hw : HardwareConfig) (cfg : ConvConfig)
    (dim kernel_size : ℕ) : Option ConvLatencies :=
  (conv_calculate_memory_access_latency hw cfg dim kernel_size).map fun m =>
    { dram_to_central := m.dram_to_central
      central_to_cgra := m.central_to_cgra
      computation := 2 * (kernel_size : ℤ) * (kernel_size : ℤ) * (cfg.num_channels : ℤ) *
        conv_output_dim cfg dim kernel_size * conv_output_dim cfg dim kernel_size *
        (cfg.num_filters : ℤ) }

/-- The per-tensor footprint dict returned by ConvAnalyzer._calculate_memory_requirements
(`none` for stride 0, where the output_dim division raises in Python). -/
structure ConvMemReq where
  input : ℤ
  kernel : ℤ
  output : ℤ
  total : ℤ
deriving Repr, DecidableEq

/-- ConvAnalyzer._calculate_memory_requirements. -/
def conv_calculate_memory_requirements (cfg : ConvConfig) (input_dim kernel_size : ℕ) :
    Option ConvMemReq :=
  if cfg.stride = 0 then none
  else
    some { input := conv_input_size cfg input_dim
           kernel := conv_kernel_size_bytes cfg kernel_size
           output := conv_output_size cfg input_dim kernel_size
           total := conv_total_size cfg input_dim kernel_size }

/-- One entry of the result list built by ConvAnalyzer.analyze. -/
structure ConvResult where
  input_dimension : ℕ
  kernel_size : ℕ
  memory : ConvMemReq
  latencies : ConvLatencies
  utilization : MemoryUtilization
  total_latency : ℚ
deriving Repr, DecidableEq

/-- ConvAnalyzer.analyze, restricted to a single (input dimension, kernel size)
point: memory requirements, latencies, utilization and total_latency = sum of
the three latency entries. -/
def conv_analyze_point (hw : HardwareConfig) (cfg : ConvConfig) (dim kernel_size : ℕ) :
    Option ConvResult :=
  match conv_calculate_memory_requirements cfg dim kernel_size,
        conv_calculate_latencies hw cfg dim kernel_size with
  | some mr, some lat =>
      some { input_dimension := dim
             kernel_size := kernel_size
             memory := mr
             latencies := lat
             utilization := calculate_memory_utilization hw (mr.total : ℚ)
             total_latency := (lat.dram_to_central : ℚ) + (lat.central_to_cgra : ℚ) +
               (lat.computation : ℚ) }
  | _, _ => none

/-- Working set as claim C2 (amended) states it for GEMM: `(2t² + t²)·element_size`
for a nonzero tile side, the full footprint `3 · dimension² · element_size`
otherwise (a zero tile side counts as tiling disabled). -/
def gemm_working_set_spec (cfg : GEMMConfig) (dim : ℕ) : ℕ :=
  match cfg.tiling_size with
  | some t =>
      if t = 0 then gemm_matrix_size cfg dim * 3
      else (2 * t * t + t * t) * cfg.data_type_size
  | none => gemm_matrix_size cfg dim * 3

/-- Working set as claim C2 (amended) states it for Conv:
`min(full footprint, tile_h · tile_w · channels · element_size)` when tiling is
enabled, the full footprint otherwise. -/
def conv_working_set_spec (cfg : ConvConfig) (dim kernel_size : ℕ) : ℤ :=
  match cfg.tiling_size with
  | some (tile_h, tile_w) =>
      min (conv_total_size cfg dim kernel_size)
        ((tile_h * tile_w * cfg.num_channels * cfg.data_type_size : ℕ) : ℤ)
  | none => conv_total_size cfg dim kernel_size

theorem gemm_working_set_eq (cfg : GEMMConfig) (dim : ℕ) :
    gemm_working_set cfg dim = gemm_working_set_spec cfg dim := by
  obtain ⟨es, ts⟩ := cfg
  cases ts with
  | none => simp [gemm_working_set, gemm_working_set_spec, gemm_matrix_size]; omega
  | some t =>
      by_cases h : t = 0
      · simp only [gemm_working_set, gemm_working_set_spec, gemm_matrix_size, h, if_true]
        omega
      · simp only [gemm_working_set, gemm_working_set_spec, gemm_matrix_size, h, if_false]

theorem conv_mem_core_working_set (hw : HardwareConfig) (cfg : ConvConfig)
    (dim kernel_size : ℕ) (il kl ol : ℤ) :
    (conv_mem_core hw cfg dim kernel_size il kl ol).working_set =
      conv_working_set_spec cfg dim kernel_size := by
  obtain ⟨c, f, es, p, s, dl, g, ts, lin, lk, v⟩ := cfg
  cases ts with
  | none => simp [conv_mem_core, conv_working_set_spec]
  | some tp => obtain ⟨th, tw⟩ := tp; simp [conv_mem_core, conv_working_set_spec]

theorem conv_mem_access_some (hw : HardwareConfig) (cfg : ConvConfig)
    (dim kernel_size : ℕ) (r : ConvMemAccess)
    (h : conv_calculate_memory_access_latency hw cfg dim kernel_size = some r) :
    ∃ loads, conv_loads cfg dim kernel_size = some loads ∧
      r = conv_mem_core hw cfg dim kernel_size loads.1 loads.2.1 loads.2.2 := by
  unfold conv_calculate_memory_access_latency at h
  split at h
  · exact absurd h (by simp)
  · obtain ⟨loads, hl, he⟩ := Option.map_eq_some'.mp h
    exact ⟨loads, hl, he.symm⟩

/-- Hardware profile with a 1 KiB local SRAM, otherwise like the reference
profile; used to exercise the reload multiplier. -/
def hwSmallLocal : HardwareConfig := mkHardwareConfig 32 512 1 100 10 1 16 100 100

/-- Reference hardware profile with different (inert) per-tier latency fields. -/
def hwAltLatencies : HardwareConfig := mkHardwareConfig 32 512 32 200 20 2 16 100 100

/-- GEMM workload with element size 4 and a zero tile side. -/
def gemmCfgTile0 : GEMMConfig := { data_type_size := 4, tiling_size := some 0 }

/-- Conv workload: 1 channel, 1 filter, element size 4, no padding, stride 1,
untiled. -/
def convCfgUntiled : ConvConfig :=
  { num_channels := 1, num_filters := 1, data_type_size := 4, padding := 0, stride := 1,
    dilation := 1, groups := 1, tiling_size := none,
    input_layout := "NCHW", kernel_layout := "KCRS", vectorization := 4 }

/-- Conv workload like convCfgUntiled but tiled 32×32. -/
def convCfgTile32 : ConvConfig := { convCfgUntiled with tiling_size := some (32, 32) }

/-- Conv workload like convCfgUntiled but tiled 3×3. -/
def convCfgTile3 : ConvConfig := { convCfgUntiled with tiling_size := some (3, 3) }

/-- Conv workload like convCfgUntiled but with a zero tile height. -/
def convCfgTileZero : ConvConfig := { convCfgUntiled with tiling_size := some (0, 32) }

/-- Conv workload like convCfgUntiled but with different (inert) dilation,
groups, layouts and vectorization. -/
def convCfgAltInert : ConvConfig :=
  { convCfgUntiled with
    dilation := 2
    groups := 3
    input_layout := "NHWC"
    kernel_layout := "OIHW"
    vectorization := 8 }

/-- C1: On the reference hardware profile (dram 32 MiB, central 512 KiB,
local 32 KiB, dma 16 bytes/cycle) with an untiled GEMM workload of element
size 4: dimension 16 yields dram_to_central = 0, central_to_cgra = 256,
computation = 2048 and total = 2304 cycles; dimension 256 yields
dram_to_central = 65536, central_to_cgra = 1572864, computation = 8388608
and total = 10027008 cycles. -/
theorem C1_reference_scenarios :
    (gemm_analyze_point hwDefault gemmCfgUntiled 16).latencies.dram_to_central = 0 ∧
    (gemm_analyze_point hwDefault gemmCfgUntiled 16).latencies.central_to_cgra = 256 ∧
    (gemm_analyze_point hwDefault gemmCfgUntiled 16).latencies.computation = 2048 ∧
    (gemm_analyze_point hwDefault gemmCfgUntiled 16).total_latency = 2304 ∧
    (gemm_analyze_point hwDefault gemmCfgUntiled 256).latencies.dram_to_central = 65536 ∧
    (gemm_analyze_point hwDefault gemmCfgUntiled 256).latencies.central_to_cgra = 1572864 ∧
    (gemm_analyze_point hwDefault gemmCfgUntiled 256).latencies.computation = 8388608 ∧
    (gemm_analyze_point hwDefault gemmCfgUntiled 256).total_latency = 10027008 := by
  norm_num [gemm_analyze_point, gemm_calculate_latencies,
    gemm_calculate_memory_access_latency, gemm_loads, gemm_working_set, gemm_matrix_size,
    gemmCfgUntiled, hwDefault, mkHardwareConfig, calculate_transfer_latency]

/-- C8: the byte-to-cycle conversion equals ceil(b / dma_bytes_per_cycle), is
monotone non-decreasing, and maps 0 to 0, for hardware with a positive dma
rate and non-negative byte counts. -/
theorem C8_bytes_to_cycles (hw : HardwareConfig) (b b1 b2 : ℚ)
    (_hb : 0 ≤ b) (hrate : 0 < hw.dma_transfer_rate) (h12 : b1 ≤ b2) :
    calculate_transfer_latency hw b = ⌈b / (hw.dma_transfer_rate : ℚ)⌉ ∧
    calculate_transfer_latency hw b1 ≤ calculate_transfer_latency hw b2 ∧
    calculate_transfer_latency hw 0 = 0 := by
  have hr : (0 : ℚ) < (hw.dma_transfer_rate : ℚ) := by exact_mod_cast hrate
  refine ⟨rfl, ?_, ?_⟩
  · exact Int.ceil_le_ceil ((div_le_div_iff_of_pos_right hr).mpr h12)
  · simp [calculate_transfer_latency]

theorem C8_bytes_to_cycles_witness :
    (0 : ℚ) ≤ 5 ∧ 0 < hwDefault.dma_transfer_rate ∧ (3 : ℚ) ≤ 7 ∧
    (calculate_transfer_latency hwDefault 5 = ⌈(5 : ℚ) / (hwDefault.dma_transfer_rate : ℚ)⌉ ∧
     calculate_transfer_latency hwDefault 3 ≤ calculate_transfer_latency hwDefault 7 ∧
     calculate_transfer_latency hwDefault 0 = 0) :=
  ⟨by norm_num, by norm_num [hwDefault, mkHardwareConfig], by norm_num,
   C8_bytes_to_cycles hwDefault 5 3 7 (by norm_num)
     (by norm_num [hwDefault, mkHardwareConfig]) (by norm_num)⟩

/-- C9: each utilization fraction equals min(1, footprint / capacity), lies in
the interval from 0 to 1, and equals footprint / capacity exactly whenever the
footprint fits the capacity, for non-negative footprints and strictly positive
capacities. -/
theorem C9_utilization (hw : HardwareConfig) (f : ℚ) (hf : 0 ≤ f)
    (h1 : 0 < hw.cgra_sram_size) (h2 : 0 < hw.central_sram_size) (h3 : 0 < hw.dram_size) :
    ((calculate_memory_utilization hw f).cgra_sram = min 1 (f / (hw.cgra_sram_size : ℚ)) ∧
     (calculate_memory_utilization hw f).central_sram = min 1 (f / (hw.central_sram_size : ℚ)) ∧
     (calculate_memory_utilization hw f).dram = min 1 (f / (hw.dram_size : ℚ))) ∧
    (0 ≤ (calculate_memory_utilization hw f).cgra_sram ∧
     (calculate_memory_utilization hw f).cgra_sram ≤ 1 ∧
     0 ≤ (calculate_memory_utilization hw f).central_sram ∧
     (calculate_memory_utilization hw f).central_sram ≤ 1 ∧
     0 ≤ (calculate_memory_utilization hw f).dram ∧
     (calculate_memory_utilization hw f).dram ≤ 1) ∧
    ((f ≤ (hw.cgra_sram_size : ℚ) →
        (calculate_memory_utilization hw f).cgra_sram = f / (hw.cgra_sram_size : ℚ)) ∧
     (f ≤ (hw.central_sram_size : ℚ) →
        (calculate_memory_utilization hw f).central_sram = f / (hw.central_sram_size : ℚ)) ∧
     (f ≤ (hw.dram_size : ℚ) →
        (calculate_memory_utilization hw f).dram = f / (hw.dram_size : ℚ))) := by
  have q1 : (0 : ℚ) < (hw.cgra_sram_size : ℚ) := by exact_mod_cast h1
  have q2 : (0 : ℚ) < (hw.central_sram_size : ℚ) := by exact_mod_cast h2
  have q3 : (0 : ℚ) < (hw.dram_size : ℚ) := by exact_mod_cast h3
  have key : ∀ c : ℚ, 0 < c → 0 ≤ min 1 (f / c) ∧ min 1 (f / c) ≤ 1 ∧
      (f ≤ c → min 1 (f / c) = f / c) := by
    intro c hc
    refine ⟨le_min (by norm_num) (div_nonneg hf hc.le), min_le_left _ _, fun hfc => ?_⟩
    exact min_eq_right ((div_le_one hc).mpr hfc)
  obtain ⟨a1, a2, a3⟩ := key _ q1
  obtain ⟨b1, b2, b3⟩ := key _ q2
  obtain ⟨c1, c2, c3⟩ := key _ q3
  exact ⟨⟨rfl, rfl, rfl⟩, ⟨a1, a2, b1, b2, c1, c2⟩, ⟨a3, b3, c3⟩⟩

theorem C9_utilization_witness :
    (0 : ℚ) ≤ 1000 ∧ 0 < hwDefault.cgra_sram_size ∧ 0 < hwDefault.central_sram_size ∧
    0 < hwDefault.dram_size ∧
    (0 ≤ (calculate_memory_utilization hwDefault 1000).cgra_sram ∧
     (calculate_memory_utilization hwDefault 1000).cgra_sram ≤ 1 ∧
     ((1000 : ℚ) ≤ (hwDefault.cgra_sram_size : ℚ) →
        (calculate_memory_utilization hwDefault 1000).cgra_sram =
          (1000 : ℚ) / (hwDefault.cgra_sram_size : ℚ))) :=
  by
  have h := C9_utilization hwDefault 1000 (by norm_num)
    (by norm_num [hwDefault, mkHardwareConfig]) (by norm_num [hwDefault, mkHardwareConfig])
    (by norm_num [hwDefault, mkHardwareConfig])
  refine ⟨by norm_num, by norm_num [hwDefault, mkHardwareConfig],
    by norm_num [hwDefault, mkHardwareConfig], by norm_num [hwDefault, mkHardwareConfig],
    h.2.1.1, h.2.1.2.1, h.2.2.1⟩

/-- C2 counterexample: on a profile with a 1 KiB local SRAM, the 16×16 Conv
workload tiled 32×32 has tile volume 32·32·1·4 = 4096 bytes but total footprint
1844 bytes; the code's reload multiplier is max(1, min(1844, 4096)/1024) =
461/256, not the claimed max(1, 4096/1024) = 4. -/
theorem C2_counterexample :
    (conv_calculate_memory_access_latency hwSmallLocal convCfgTile32 16 3).map
      (fun r => r.reloads) = some (461 / 256) ∧
    ((461 : ℚ) / 256) ≠ max 1 ((32 * 32 * 1 * 4 : ℚ) / 1024) := by
  constructor
  · norm_num [conv_calculate_memory_access_latency, conv_loads, conv_mem_core,
      conv_total_size, conv_input_size, conv_kernel_size_bytes, conv_output_size,
      conv_output_dim, convCfgTile32, convCfgUntiled, hwSmallLocal, mkHardwareConfig,
      calculate_transfer_latency, Int.fdiv]
  · norm_num

/-- C2 (amended): the reload multiplier is max(1, working_set /
local_capacity) applied to the central-to-local transfer total, where the
working set is `(2t² + t²)·element_size` for GEMM with a nonzero tile side
(a zero tile side counts as tiling disabled), `min(full footprint,
tile_h·tile_w·channels·element_size)` for tiled Conv, and the full footprint
when tiling is disabled. -/
theorem C2_reload_multiplier (hw : HardwareConfig) (gcfg : GEMMConfig) (dim : ℕ)
    (ccfg : ConvConfig) (cdim ck : ℕ) :
    (gemm_calculate_memory_access_latency hw gcfg dim).reloads =
      max 1 ((gemm_working_set_spec gcfg dim : ℚ) / (hw.cgra_sram_size : ℚ)) ∧
    (gemm_calculate_memory_access_latency hw gcfg dim).central_cgra_bytes =
      ((gemm_loads gcfg dim : ℕ) : ℚ) *
        (gemm_calculate_memory_access_latency hw gcfg dim).reloads ∧
    (conv_calculate_memory_access_latency hw ccfg cdim ck).elim True (fun r =>
      r.reloads =
        max 1 ((conv_working_set_spec ccfg cdim ck : ℚ) / (hw.cgra_sram_size : ℚ)) ∧
      r.central_cgra_bytes = (r.pre_reload_total : ℚ) * r.reloads) := by
  refine ⟨?_, rfl, ?_⟩
  · have h0 : (gemm_calculate_memory_access_latency hw gcfg dim).reloads =
        max 1 ((gemm_working_set gcfg dim : ℚ) / (hw.cgra_sram_size : ℚ)) := rfl
    rw [h0, gemm_working_set_eq]
  · cases h : conv_calculate_memory_access_latency hw ccfg cdim ck with
    | none => trivial
    | some r =>
        obtain ⟨loads, _hl, he⟩ := conv_mem_access_some hw ccfg cdim ck r h
        subst he
        refine ⟨?_, rfl⟩
        have h1 : (conv_mem_core hw ccfg cdim ck loads.1 loads.2.1 loads.2.2).reloads =
            max 1 (((conv_mem_core hw ccfg cdim ck loads.1 loads.2.1 loads.2.2).working_set : ℚ) /
              (hw.cgra_sram_size : ℚ)) := rfl
        rw [h1, conv_mem_core_working_set]

/-- C3 counterexample: 16×16 Conv input (1024 bytes), tiled 3×3, kernel side 3:
tiles_h = tiles_w = 6, the code floors 1024 // 36 = 28 and transfers
28·36·3 = 3024 input bytes, while the claim's real-division formula
(1024/36)·36·3 gives 3072. -/
theorem C3_counterexample :
    (conv_calculate_memory_access_latency hwDefault convCfgTile3 16 3).map
      (fun r => r.input_load) = some 3024 ∧
    ((1024 : ℚ) / (6 * 6)) * 6 * 6 * (1 + (3 - 1)) = 3072 ∧
    (3024 : ℚ) ≠ 3072 := by
  refine ⟨?_, by norm_num, by norm_num⟩
  norm_num [conv_calculate_memory_access_latency, conv_loads, conv_mem_core,
    conv_total_size, conv_input_size, conv_kernel_size_bytes, conv_output_size,
    conv_output_dim, convCfgTile3, convCfgUntiled, hwDefault, mkHardwareConfig,
    calculate_transfer_latency, Int.fdiv]

/-- C3 (amended): for tiled Conv the central-to-local input volume is
`floor(input_bytes / (tiles_h·tiles_w)) · tiles_h · tiles_w · (1 + (kernel_side − 1))`
(the effective tile size is the floored integer quotient), the kernel
contributes kernel_bytes once, the output contributes output_bytes once, and
the pre-reload total is the sum of the three. -/
theorem C3_tiled_input_volume (hw : HardwareConfig) (cfg : ConvConfig)
    (dim kernel_size th tw : ℕ) (htile : cfg.tiling_size = some (th, tw)) :
    (conv_calculate_memory_access_latency hw cfg dim kernel_size).elim True (fun r =>
      r.input_load =
        Int.fdiv (conv_input_size cfg dim)
            ((((dim + th - 1) / th : ℕ) : ℤ) * (((dim + tw - 1) / tw : ℕ) : ℤ)) *
          (((dim + th - 1) / th : ℕ) : ℤ) * (((dim + tw - 1) / tw : ℕ) : ℤ) *
          (1 + ((kernel_size : ℤ) - 1)) ∧
      r.kernel_load = conv_kernel_size_bytes cfg kernel_size ∧
      r.output_load = conv_output_size cfg dim kernel_size ∧
      r.pre_reload_total = r.input_load + r.kernel_load + r.output_load) := by
  cases h : conv_calculate_memory_access_latency hw cfg dim kernel_size with
  | none => trivial
  | some r =>
      obtain ⟨loads, hl, he⟩ := conv_mem_access_some hw cfg dim kernel_size r h
      subst he
      simp only [conv_loads, htile] at hl
      split at hl
      · exact absurd hl (by simp)
      · split at hl
        · exact absurd hl (by simp)
        · injection hl with h2
          subst h2
          exact ⟨rfl, rfl, rfl, rfl⟩

theorem C3_tiled_input_volume_witness :
    convCfgTile3.tiling_size = some (3, 3) ∧
    (conv_calculate_memory_access_latency hwDefault convCfgTile3 16 3).elim True (fun r =>
      r.input_load =
        Int.fdiv (conv_input_size convCfgTile3 16)
            ((((16 + 3 - 1) / 3 : ℕ) : ℤ) * (((16 + 3 - 1) / 3 : ℕ) : ℤ)) *
          (((16 + 3 - 1) / 3 : ℕ) : ℤ) * (((16 + 3 - 1) / 3 : ℕ) : ℤ) *
          (1 + (((3 : ℕ) : ℤ) - 1)) ∧
      r.kernel_load = conv_kernel_size_bytes convCfgTile3 3 ∧
      r.output_load = conv_output_size convCfgTile3 16 3 ∧
      r.pre_reload_total = r.input_load + r.kernel_load + r.output_load) :=
  ⟨rfl, C3_tiled_input_volume hwDefault convCfgTile3 16 3 3 3 rfl⟩

/-- C4: the code never validates the derived output side. For input side 2,
kernel side 5, padding 0, stride 1 the output side is −2 (< 1), yet the
analysis raises nothing: it squares the negative output side into a 16-byte
output footprint and returns a complete result record with total latency 234. -/
theorem C4_missing_invalid_workload_check :
    conv_output_dim convCfgUntiled 2 5 = -2 ∧
    (conv_analyze_point hwDefault convCfgUntiled 2 5).isSome = true ∧
    (conv_analyze_point hwDefault convCfgUntiled 2 5).map (fun res => res.memory.output) =
      some 16 ∧
    (conv_analyze_point hwDefault convCfgUntiled 2 5).map (fun res => res.total_latency) =
      some 234 := by
  have hod : conv_output_dim convCfgUntiled 2 5 = -2 := by decide
  have hod2 : conv_output_dim
      { num_channels := 1, num_filters := 1, data_type_size := 4, padding := 0, stride := 1,
        dilation := 1, groups := 1, tiling_size := none, input_layout := "NCHW",
        kernel_layout := "KCRS", vectorization := 4 } 2 5 = -2 := hod
  refine ⟨hod, ?_, ?_, ?_⟩ <;>
    · norm_num [conv_analyze_point, conv_calculate_memory_requirements,
        conv_calculate_latencies, conv_calculate_memory_access_latency, conv_loads,
        conv_mem_core, conv_total_size, conv_input_size, conv_kernel_size_bytes,
        conv_output_size, hod, hod2, convCfgUntiled, hwDefault, mkHardwareConfig,
        calculate_transfer_latency, calculate_memory_utilization]
      try rw [show (⌈(133 : ℚ) / 4⌉ : ℤ) = 34 from Int.ceil_eq_iff.mpr (by norm_num)]
      try norm_num

/-- C5 counterexample: a GEMM tile side of 0 does not fail: Python's
`if config.tiling_size:` is false for 0, so the analysis takes the untiled
path and returns the full untiled result (total 2304 cycles at dimension 16
on the reference profile). -/
theorem C5_counterexample :
    gemm_analyze_point hwDefault gemmCfgTile0 16 =
      gemm_analyze_point hwDefault gemmCfgUntiled 16 ∧
    (gemm_analyze_point hwDefault gemmCfgTile0 16).total_latency = 2304 := by
  constructor
  · rfl
  · norm_num [gemm_analyze_point, gemm_calculate_latencies,
      gemm_calculate_memory_access_latency, gemm_loads, gemm_working_set, gemm_matrix_size,
      gemmCfgTile0, hwDefault, mkHardwareConfig, calculate_transfer_latency]

/-- C5 (amended): a GEMM tile side of 0 is treated as tiling disabled and the
untiled result is produced; a Conv tile with height or width 0 makes the
traffic computation fail (Python raises ZeroDivisionError, not a typed
InvalidConfiguration), producing no result. -/
theorem C5_zero_tile (hw : HardwareConfig) (gcfg : GEMMConfig) (dim : ℕ)
    (hg : gcfg.tiling_size = some 0)
    (ccfg : ConvConfig) (cdim ck th tw : ℕ)
    (hc : ccfg.tiling_size = some (th, tw)) (h0 : th = 0 ∨ tw = 0) :
    gemm_analyze_point hw gcfg dim =
      gemm_analyze_point hw { gcfg with tiling_size := none } dim ∧
    conv_calculate_memory_access_latency hw ccfg cdim ck = none := by
  constructor
  · obtain ⟨es, ts⟩ := gcfg
    cases hg
    rfl
  · simp only [conv_calculate_memory_access_latency, conv_loads, hc]
    rcases h0 with h | h <;> simp [h]

theorem C5_zero_tile_witness :
    gemmCfgTile0.tiling_size = some 0 ∧
    convCfgTileZero.tiling_size = some (0, 32) ∧
    (gemm_analyze_point hwDefault gemmCfgTile0 16 =
       gemm_analyze_point hwDefault { gemmCfgTile0 with tiling_size := none } 16 ∧
     conv_calculate_memory_access_latency hwDefault convCfgTileZero 16 3 = none) :=
  ⟨rfl, rfl, C5_zero_tile hwDefault gemmCfgTile0 16 rfl convCfgTileZero 16 3 0 32 rfl
    (Or.inl rfl)⟩

/-- C6: whenever the total footprint fits in central SRAM, both analyzers take
the resident branch: DRAM-to-central bytes and cycles are exactly 0. -/
theorem C6_fits_in_central (hw : HardwareConfig) (gcfg : GEMMConfig) (dim : ℕ)
    (ccfg : ConvConfig) (cdim ck : ℕ)
    (hg : gemm_matrix_size gcfg dim * 3 ≤ hw.central_sram_size)
    (hc : conv_total_size ccfg cdim ck ≤ (hw.central_sram_size : ℤ)) :
    (gemm_calculate_memory_access_latency hw gcfg dim).dram_bytes = 0 ∧
    (gemm_calculate_memory_access_latency hw gcfg dim).dram_to_central = 0 ∧
    (conv_calculate_memory_access_latency hw ccfg cdim ck).elim True (fun r =>
      r.dram_bytes = 0 ∧ r.dram_to_central = 0) := by
  refine ⟨?_, ?_, ?_⟩
  · simp [gemm_calculate_memory_access_latency, hg]
  · simp [gemm_calculate_memory_access_latency, hg]
  · cases h : conv_calculate_memory_access_latency hw ccfg cdim ck with
    | none => trivial
    | some r =>
        obtain ⟨loads, _hl, he⟩ := conv_mem_access_some hw ccfg cdim ck r h
        subst he
        constructor <;> simp [conv_mem_core, hc]

theorem C6_fits_in_central_witness :
    gemm_matrix_size gemmCfgUntiled 16 * 3 ≤ hwDefault.central_sram_size ∧
    conv_total_size convCfgUntiled 16 3 ≤ (hwDefault.central_sram_size : ℤ) ∧
    ((gemm_calculate_memory_access_latency hwDefault gemmCfgUntiled 16).dram_bytes = 0 ∧
     (gemm_calculate_memory_access_latency hwDefault gemmCfgUntiled 16).dram_to_central = 0 ∧
     (conv_calculate_memory_access_latency hwDefault convCfgUntiled 16 3).elim True (fun r =>
       r.dram_bytes = 0 ∧ r.dram_to_central = 0)) :=
  ⟨by decide, by decide,
   C6_fits_in_central hwDefault gemmCfgUntiled 16 convCfgUntiled 16 3 (by decide) (by decide)⟩

/-- C7: GEMM computation cycles are 2·dimension³ divided by the fixed compute
width 4; Conv computation cycles are 2·kernel_side²·channels·output_side²·filters
with no compute-width division; and total latency is the strict sum of the
dram_to_central, central_to_cgra and computation entries for both analyzers. -/
theorem C7_computation_and_total (hw : HardwareConfig) (gcfg : GEMMConfig) (dim : ℕ)
    (ccfg : ConvConfig) (cdim ck : ℕ) :
    (gemm_analyze_point hw gcfg dim).latencies.computation = (2 * dim * dim * dim : ℚ) / 4 ∧
    (gemm_analyze_point hw gcfg dim).total_latency =
      ((gemm_analyze_point hw gcfg dim).latencies.dram_to_central : ℚ) +
        ((gemm_analyze_point hw gcfg dim).latencies.central_to_cgra : ℚ) +
        (gemm_analyze_point hw gcfg dim).latencies.computation ∧
    (conv_analyze_point hw ccfg cdim ck).elim True (fun res =>
      res.latencies.computation =
        2 * (ck : ℤ) * (ck : ℤ) * (ccfg.num_channels : ℤ) *
          conv_output_dim ccfg cdim ck * conv_output_dim ccfg cdim ck *
          (ccfg.num_filters : ℤ) ∧
      res.total_latency = (res.latencies.dram_to_central : ℚ) +
        (res.latencies.central_to_cgra : ℚ) + (res.latencies.computation : ℚ)) := by
  refine ⟨rfl, rfl, ?_⟩
  unfold conv_analyze_point
  cases hm : conv_calculate_memory_requirements ccfg cdim ck with
  | none => simp
  | some mr =>
      cases hl : conv_calculate_latencies hw ccfg cdim ck with
      | none => simp
      | some lat =>
          obtain ⟨m, _hmem, he⟩ := Option.map_eq_some'.mp hl
          subst he
          exact ⟨rfl, rfl⟩

/-- C10: the per-tier latency fields of the hardware profile and the dilation,
groups, layout and vectorization fields of a Conv workload are inert: two runs
whose inputs differ only in those fields produce identical result records. -/
theorem C10_noninterference (hw1 hw2 : HardwareConfig)
    (h1 : hw1.dram_size = hw2.dram_size)
    (h2 : hw1.central_sram_size = hw2.central_sram_size)
    (h3 : hw1.cgra_sram_size = hw2.cgra_sram_size)
    (h4 : hw1.dma_transfer_rate = hw2.dma_transfer_rate)
    (h5 : hw1.bus_frequency = hw2.bus_frequency)
    (h6 : hw1.cgra_frequency = hw2.cgra_frequency)
    (gcfg : GEMMConfig) (dim : ℕ) (ccfg1 ccfg2 : ConvConfig) (cdim ck : ℕ)
    (e1 : ccfg1.num_channels = ccfg2.num_channels)
    (e2 : ccfg1.num_filters = ccfg2.num_filters)
    (e3 : ccfg1.data_type_size = ccfg2.data_type_size)
    (e4 : ccfg1.padding = ccfg2.padding)
    (e5 : ccfg1.stride = ccfg2.stride)
    (e6 : ccfg1.tiling_size = ccfg2.tiling_size) :
    gemm_analyze_point hw1 gcfg dim = gemm_analyze_point hw2 gcfg dim ∧
    conv_analyze_point hw1 ccfg1 cdim ck = conv_analyze_point hw2 ccfg1 cdim ck ∧
    conv_analyze_point hw1 ccfg1 cdim ck = conv_analyze_point hw1 ccfg2 cdim ck := by
  obtain ⟨d1, c1, g1, dl1, cl1, gl1, r1, b1, f1⟩ := hw1
  obtain ⟨d2, c2, g2, dl2, cl2, gl2, r2, b2, f2⟩ := hw2
  obtain ⟨cn1, cf1, ce1, cp1, cs1, cd1, cg1, ct1, cli1, clk1, cv1⟩ := ccfg1
  obtain ⟨cn2, cf2, ce2, cp2, cs2, cd2, cg2, ct2, cli2, clk2, cv2⟩ := ccfg2
  simp only at h1 h2 h3 h4 h5 h6 e1 e2 e3 e4 e5 e6
  subst h1 h2 h3 h4 h5 h6 e1 e2 e3 e4 e5 e6
  exact ⟨rfl, rfl, rfl⟩

theorem C10_noninterference_witness :
    hwDefault.dram_size = hwAltLatencies.dram_size ∧
    hwDefault.central_sram_size = hwAltLatencies.central_sram_size ∧
    hwDefault.cgra_sram_size = hwAltLatencies.cgra_sram_size ∧
    hwDefault.dma_transfer_rate = hwAltLatencies.dma_transfer_rate ∧
    hwDefault.bus_frequency = hwAltLatencies.bus_frequency ∧
    hwDefault.cgra_frequency = hwAltLatencies.cgra_frequency ∧
    hwDefault.dram_latency ≠ hwAltLatencies.dram_latency ∧
    convCfgUntiled.dilation ≠ convCfgAltInert.dilation ∧
    convCfgUntiled.vectorization ≠ convCfgAltInert.vectorization ∧
    (gemm_analyze_point hwDefault gemmCfgUntiled 16 =
       gemm_analyze_point hwAltLatencies gemmCfgUntiled 16 ∧
     conv_analyze_point hwDefault convCfgUntiled 16 3 =
       conv_analyze_point hwAltLatencies convCfgUntiled 16 3 ∧
     conv_analyze_point hwDefault convCfgUntiled 16 3 =
       conv_analyze_point hwDefault convCfgAltInert 16 3) :=
  ⟨rfl, rfl, rfl, rfl, rfl, rfl, by decide, by decide, by decide,
   C10_noninterference hwDefault hwAltLatencies rfl rfl rfl rfl rfl rfl
     gemmCfgUntiled 16 convCfgUntiled convCfgAltInert 16 3 rfl rfl rfl rfl rfl rfl⟩
